import Mathlib

/-!
Verification of the session lifecycle manager of the WhatsApp multi-session
gateway (Baileys + Redis).  The repository ships several near-duplicate server
variants; the PM2 deployment configs run `server2.js` and `server-optimized.js`,
so those two files (the latter shipped as an unnamed source part) form the
canonical core.  We embed:

  * the session record and registry (`sessions` object),
  * `startSession` (both the server-optimized variant, with the MAX_SESSIONS
    capacity gate and `sessionTimers` bookkeeping, and the server-2 variant),
  * `killSession` (server.js / server-2.js variant with fallible transport
    sub-steps, and the server-optimized variant used by the expiry sweep),
  * the `connection.update` handler (qr / open / close branches) of both
    canonical variants,
  * the pairing-code timer callback and the pending-expiry sweep.

Machine state is functional: the mutable `sessions` object becomes an
association list, `setTimeout`/Redis/socket.io side effects become an explicit
`Effect` trace (console logging is not modelled: it is not an observable
lifecycle action).  Transport handles (`makeWASocket` results) are numbered by
a monotone counter so that object identity of handles is expressible.
-/

/-- Session status; the source stores strings 'pending_qr' | 'pending_pair' |
'connected'. -/
inductive Status where
  | pending_qr
  | pending_pair
  | connected
  deriving DecidableEq, Repr

/-- The string the source stores for each status. -/
def Status.str : Status → String
  | .pending_qr => "pending_qr"
  | .pending_pair => "pending_pair"
  | .connected => "connected"

/-- `status.startsWith('pending')` from the source (expiry sweep and
`getExpireInfo`). -/
def Status.isPending : Status → Bool
  | .pending_qr => true
  | .pending_pair => true
  | .connected => false

/-- One session record, mirroring the object stored in `sessions[sessionId]`
by the canonical `startSession` (fields `sock`, `status`, `qr`, `pairingCode`,
`createdAt`, `connectedAt`, `phoneNumber`, `reconnectAttempts`,
`isReconnecting`; the `authRedis` handle and listener bookkeeping carry no
lifecycle state and are omitted). -/
structure Session where
  sockHandle : Nat
  status : Status
  qr : Option String
  pairingCode : Option String
  createdAt : Nat
  connectedAt : Option Nat
  phoneNumber : Option String
  reconnectAttempts : Nat
  isReconnecting : Bool
  deriving DecidableEq, Repr

/-- The process-wide `sessions` object: id-keyed map, as an association list. -/
abbrev Registry := List (String × Session)

/-- Lookup `sessions[id]`. -/
def rfind : Registry → String → Option Session
  | [], _ => none
  | (k, s) :: rest, id => if k = id then some s else rfind rest id

/-- `delete sessions[id]`. -/
def rerase : Registry → String → Registry
  | [], _ => []
  | (k, s) :: rest, id =>
      if k = id then rerase rest id else (k, s) :: rerase rest id

/-- `sessions[id] = s` (insert or overwrite). -/
def rinsert (r : Registry) (id : String) (s : Session) : Registry :=
  (id, s) :: rerase r id

/-- `Object.values(sessions).length`. -/
def rsize (r : Registry) : Nat := r.length

/-- Registry well-formedness: each id occurs at most once (invariant of the
`sessions` object, whose keys are unique). -/
abbrev keysNodup (r : Registry) : Prop := (r.map Prod.fst).Nodup

theorem rfind_rinsert_self (r : Registry) (id : String) (s : Session) :
    rfind (rinsert r id s) id = some s := by
  simp [rinsert, rfind]

theorem rfind_rerase_self (r : Registry) (id : String) :
    rfind (rerase r id) id = none := by
  induction r with
  | nil => rfl
  | cons p rest ih =>
      obtain ⟨k, s⟩ := p
      by_cases hk : k = id
      · simpa [rerase, hk] using ih
      · simp [rerase, rfind, hk, ih]

theorem rfind_rerase_ne (r : Registry) (j id : String) (h : j ≠ id) :
    rfind (rerase r j) id = rfind r id := by
  induction r with
  | nil => rfl
  | cons p rest ih =>
      obtain ⟨k, s⟩ := p
      by_cases hk : k = j
      · subst hk
        simp [rerase, rfind, h, ih]
      · simp only [rerase, if_neg hk, rfind]
        by_cases hk2 : k = id
        · simp [hk2]
        · simp [hk2, ih]

theorem rfind_mem (r : Registry) (id : String) (s : Session)
    (h : rfind r id = some s) : (id, s) ∈ r := by
  induction r with
  | nil => simp [rfind] at h
  | cons p rest ih =>
      obtain ⟨k, t⟩ := p
      by_cases hk : k = id
      · subst hk
        simp [rfind] at h
        simp [h]
      · simp [rfind, hk] at h
        exact List.mem_cons_of_mem _ (ih h)

theorem rfind_eq_none_of_not_mem_keys (r : Registry) (id : String)
    (h : id ∉ r.map Prod.fst) : rfind r id = none := by
  induction r with
  | nil => rfl
  | cons p rest ih =>
      obtain ⟨k, t⟩ := p
      have hk : k ≠ id := by
        intro hk
        exact h (by simp [hk])
      have h2 : id ∉ rest.map Prod.fst := by
        intro hm
        exact h (by simp [hm])
      simp [rfind, hk, ih h2]

theorem mem_value_eq (r : Registry) (id : String) (s t : Session)
    (hnd : keysNodup r) (hf : rfind r id = some s) (hm : (id, t) ∈ r) :
    t = s := by
  induction r with
  | nil => simp at hm
  | cons p rest ih =>
      obtain ⟨k, u⟩ := p
      have hcons : k ∉ rest.map Prod.fst ∧ keysNodup rest := by
        have := hnd
        simp only [keysNodup, List.map_cons, List.nodup_cons] at this
        exact this
      rcases List.mem_cons.mp hm with hh | hh
      · have hk : k = id := by
          have := congrArg Prod.fst hh.symm
          simpa using this
        have ht : u = t := by
          have := congrArg Prod.snd hh.symm
          simpa using this
        subst hk
        simp [rfind] at hf
        rw [← ht]
        exact hf
      · have hk : k ≠ id := by
          intro hk
          subst hk
          exact hcons.1 (by simpa using List.mem_map_of_mem Prod.fst hh)
        exact ih hcons.2 (by simpa [rfind, hk] using hf) hh

/-- Observable side effects of the lifecycle core: socket.io emissions, Redis
purges, transport operations and scheduled (`setTimeout`) actions.  Console
logging is not modelled. -/
inductive Effect where
  | emitKilled (id reason : String)
  | emit (id event : String)
  | broadcast
  | sockEnd (handle : Nat)
  | sockLogout (handle : Nat)
  | purgeKeys (pattern : String)
  | scheduleRestart (id : String) (delayMs : Nat)
  | schedulePairing (id : String) (delayMs : Nat)
  | clearTimers (id : String)
  deriving DecidableEq, Repr

/-- Process state: the `sessions` object, the set of still-armed pairing-code
timers recorded in `sessionTimers` (server-optimized variant; an entry is
removed by `clearSessionTimers` or consumed when the timer fires), and the
supply of fresh transport handles for `makeWASocket`. -/
structure World where
  sessions : Registry
  pairingTimers : List String
  nextHandle : Nat
  deriving DecidableEq, Repr

/-- Baileys `DisconnectReason` numeric codes (note `connectionLost` and
`timedOut` share code 408, as the source's reason-name table records). -/
def DR_loggedOut : Nat := 401
def DR_badSession : Nat := 500
def DR_connectionClosed : Nat := 428
def DR_connectionLost : Nat := 408
def DR_timedOut : Nat := 408
def DR_connectionReplaced : Nat := 440
def DR_restartRequired : Nat := 515
def DR_multideviceMismatch : Nat := 411
def DR_forbidden : Nat := 403
def DR_unavailableService : Nat := 503

/-- `getDisconnectReasonName` from the source. -/
def getDisconnectReasonName (code : Option Nat) : String :=
  match code with
  | some 428 => "connectionClosed"
  | some 408 => "connectionLost"
  | some 440 => "connectionReplaced"
  | some 500 => "badSession"
  | some 401 => "loggedOut"
  | some 515 => "restartRequired"
  | some 411 => "multideviceMismatch"
  | some 403 => "forbidden"
  | some 503 => "unavailableService"
  | _ => "unknown"

def PENDING_EXPIRE_MS : Nat := 2 * 60 * 1000
def MAX_RECONNECT_ATTEMPTS : Nat := 5

/-- Classification helpers (spec taxonomy, derived from the code's equality
tests against `DisconnectReason`). -/
def isTerminalCode (c : Nat) : Bool :=
  c == DR_loggedOut || c == DR_badSession || c == DR_forbidden ||
  c == DR_multideviceMismatch || c == DR_connectionReplaced

def isTransientCode (c : Nat) : Bool :=
  c == DR_connectionLost || c == DR_timedOut || c == DR_connectionClosed ||
  c == DR_unavailableService

def isClassifiedCode : Option Nat → Bool
  | some c => isTerminalCode c || isTransientCode c || c == DR_restartRequired
  | none => false

/-- Does an effect schedule a restart (`setTimeout(... startSession ...)`.)? -/
def isRestartEff : Effect → Bool
  | .scheduleRestart _ _ => true
  | _ => false

/-- Is the effect the Redis credential purge for `id`
(`deleteKeysWithPattern` with pattern `id ++ ":*"`)? -/
def isPurgeFor (id : String) : Effect → Bool
  | .purgeKeys p => p == id ++ ":*"
  | _ => false

/-- How many times the credential purge for `id` was invoked. -/
def countPurges (effs : List Effect) (id : String) : Nat :=
  (effs.filter (isPurgeFor id)).length

/-- The fresh record `startSession` stores into `sessions[sessionId]`. -/
def freshSession (handle : Nat) (phone : Option String) (now : Nat) : Session :=
  { sockHandle := handle
  , status := if phone.isSome then Status.pending_pair else Status.pending_qr
  , qr := none
  , pairingCode := none
  , createdAt := now
  , connectedAt := none
  , phoneNumber := phone
  , reconnectAttempts := 0
  , isReconnecting := false }

/-- Tail of `startSession` common to both canonical variants: make a new
socket (fresh handle), store the fresh record, broadcast, and if a phone
number was supplied and the credentials are not registered, arm the delayed
pairing-code request (`setTimeout(..., 1200)`, recorded in `sessionTimers`). -/
def createFresh (w : World) (id : String) (phone : Option String) (now : Nat)
    (registered : Bool) (prevEffects : List Effect) : World × List Effect :=
  let handle := w.nextHandle
  let wantPairing := phone.isSome && !registered
  ( { sessions := rinsert w.sessions id (freshSession handle phone now)
    , pairingTimers := if wantPairing then id :: w.pairingTimers else w.pairingTimers
    , nextHandle := w.nextHandle + 1 }
  , prevEffects ++ [Effect.broadcast] ++
      (if wantPairing then [Effect.schedulePairing id 1200] else []) )

/-- `startSession` of the server-optimized variant: idempotent-start check,
MAX_SESSIONS capacity gate for new (non-restart) sessions, forced teardown
(`cleanupSessionSocket` + `clearSessionTimers` + delete) when `force`, then a
fresh start.  Note that an existing non-connected record with `force = false`
is overwritten without any teardown or timer cancellation, exactly as in the
source. -/
def startSessionOpt (maxSessions : Nat) (w : World) (id : String)
    (phone : Option String) (force : Bool) (now : Nat) (registered : Bool) :
    World × List Effect :=
  match rfind w.sessions id with
  | some existing =>
      if force = false ∧ existing.status = Status.connected then
        (w, [])
      else if force then
        let w1 : World :=
          { sessions := rerase w.sessions id
          , pairingTimers := w.pairingTimers.filter (fun j => j ≠ id)
          , nextHandle := w.nextHandle }
        createFresh w1 id phone now registered
          [Effect.sockEnd existing.sockHandle, Effect.clearTimers id]
      else
        createFresh w id phone now registered []
  | none =>
      if maxSessions ≤ rsize w.sessions then
        (w, [])
      else
        createFresh w id phone now registered []

/-- `startSession` of the server-2 variant: same shape, but no capacity gate
and no `sessionTimers` bookkeeping (its forced teardown only ends the old
socket). -/
def startSession2 (w : World) (id : String) (phone : Option String)
    (force : Bool) (now : Nat) (registered : Bool) : World × List Effect :=
  match rfind w.sessions id with
  | some existing =>
      if force = false ∧ existing.status = Status.connected then
        (w, [])
      else if force then
        createFresh { w with sessions := rerase w.sessions id } id phone now
          registered [Effect.sockEnd existing.sockHandle]
      else
        createFresh w id phone now registered []
  | none => createFresh w id phone now registered []

/-- `killSession` of server.js / server-2.js.  The first try block emits the
killed event and stops the socket (`end` then `logout`); a throw inside it
(modelled by `endFails`: `sock.end()` rejecting) skips the rest of that block
but is swallowed, and the Redis purge, record removal and broadcast always
follow.  Returns `false` without touching anything when no record exists. -/
def killSession (w : World) (id : String) (reason : String) (endFails : Bool) :
    World × List Effect × Bool :=
  match rfind w.sessions id with
  | none => (w, [], false)
  | some s =>
      let transportEffects :=
        [Effect.emitKilled id reason, Effect.sockEnd s.sockHandle] ++
          (if endFails then [] else [Effect.sockLogout s.sockHandle])
      ( { w with sessions := rerase w.sessions id }
      , transportEffects ++ [Effect.purgeKeys (id ++ ":*"), Effect.broadcast]
      , true )

/-- The `DELETE /session/:id` route: `killSession(id, 'api_delete')`, mapping
a `false` result to the SESSION_NOT_FOUND error response. -/
def deleteSessionRoute (w : World) (id : String) (endFails : Bool) :
    World × List Effect × String :=
  let r := killSession w id "api_delete" endFails
  (r.1, r.2.1, if r.2.2 then "ok" else "SESSION_NOT_FOUND")

/-- The effect trace of the server-optimized `killSession` on record `s`:
killed notification, transport teardown (`cleanupSessionSocket`), credential
purge (`cleanupSessionRedis`), timer cancellation (`clearSessionTimers`),
then the global broadcast after removal. -/
def killOptEffects (id : String) (s : Session) (reason : String) : List Effect :=
  [ Effect.emitKilled id reason
  , Effect.sockEnd s.sockHandle
  , Effect.purgeKeys (id ++ ":*")
  , Effect.clearTimers id
  , Effect.broadcast ]

/-- `killSession` of the server-optimized variant (all sub-steps swallow their
own errors, so the cleanup is unconditional). -/
def killSessionOpt (w : World) (id : String) (reason : String) :
    World × List Effect × Bool :=
  match rfind w.sessions id with
  | none => (w, [], false)
  | some s =>
      ( { w with
            sessions := rerase w.sessions id
          , pairingTimers := w.pairingTimers.filter (fun j => j ≠ id) }
      , killOptEffects id s reason
      , true )

/-- The `connection === 'close'` branch of server-2's `connection.update`
handler.  Re-entrancy guard first; then the unified terminal branch (inline
Redis purge, delete, reason-specific emission, broadcast); then the transient
branch with exponential backoff (base 5000 ms for `unavailableService`, else
2000 ms, capped at 30000 ms) whose overflow path calls `killSession`; then the
restart-required branch; any other code only logs. -/
def handleClose2 (w : World) (id : String) (code : Option Nat) :
    World × List Effect :=
  match rfind w.sessions id with
  | none => (w, [])
  | some s =>
      if s.isReconnecting then (w, [])
      else if code = some DR_loggedOut ∨ code = some DR_badSession ∨
          code = some DR_forbidden ∨ code = some DR_multideviceMismatch ∨
          code = some DR_connectionReplaced then
        ( { w with sessions := rerase w.sessions id }
        , [Effect.purgeKeys (id ++ ":*")] ++
            (if code = some DR_forbidden then
              [Effect.emit id "session:forbidden"]
            else if code = some DR_multideviceMismatch then
              [Effect.emit id "session:multidevice_error"]
            else if code = some DR_connectionReplaced then
              [Effect.emit id "session:replaced"]
            else []) ++
            [Effect.broadcast] )
      else if code = some DR_connectionLost ∨ code = some DR_timedOut ∨
          code = some DR_connectionClosed ∨ code = some DR_unavailableService then
        let attempts := s.reconnectAttempts + 1
        if attempts ≤ MAX_RECONNECT_ATTEMPTS then
          let baseBackoff :=
            if code = some DR_unavailableService then 5000 else 2000
          let backoff := min (attempts * baseBackoff) 30000
          let s1 := { s with reconnectAttempts := attempts, isReconnecting := true }
          ( { w with sessions := rinsert w.sessions id s1 }
          , [Effect.scheduleRestart id backoff] )
        else
          let s1 := { s with reconnectAttempts := attempts }
          let k := killSession { w with sessions := rinsert w.sessions id s1 }
            id "max_reconnect_attempts" false
          (k.1, k.2.1)
      else if code = some DR_restartRequired then
        let s1 := { s with isReconnecting := true }
        ( { w with sessions := rinsert w.sessions id s1 }
        , [Effect.scheduleRestart id 2000] )
      else
        (w, [])

/-- The callback of the restart `setTimeout` in server-2's transient and
restart-required branches: if the record still exists, clear `isReconnecting`
and call `startSession(sessionId, phoneNumber, true)`. -/
def runScheduledRestart2 (w : World) (id : String) (phone : Option String)
    (now : Nat) (registered : Bool) : World × List Effect :=
  match rfind w.sessions id with
  | none => (w, [])
  | some s =>
      let s1 := { s with isReconnecting := false }
      startSession2 { w with sessions := rinsert w.sessions id s1 }
        id phone true now registered

/-- The `connection === 'close'` branch of the server-optimized
`connectionListener`: identical classification, but the terminal and
max-attempts paths go through the server-optimized `killSession` (terminal
reason `terminal_<reasonName>`). -/
def handleCloseOpt (w : World) (id : String) (code : Option Nat) :
    World × List Effect :=
  match rfind w.sessions id with
  | none => (w, [])
  | some s =>
      if s.isReconnecting then (w, [])
      else if code = some DR_loggedOut ∨ code = some DR_badSession ∨
          code = some DR_forbidden ∨ code = some DR_multideviceMismatch ∨
          code = some DR_connectionReplaced then
        let k := killSessionOpt w id ("terminal_" ++ getDisconnectReasonName code)
        (k.1, k.2.1)
      else if code = some DR_connectionLost ∨ code = some DR_timedOut ∨
          code = some DR_connectionClosed ∨ code = some DR_unavailableService then
        let attempts := s.reconnectAttempts + 1
        if attempts ≤ MAX_RECONNECT_ATTEMPTS then
          let baseBackoff :=
            if code = some DR_unavailableService then 5000 else 2000
          let backoff := min (attempts * baseBackoff) 30000
          let s1 := { s with reconnectAttempts := attempts, isReconnecting := true }
          ( { w with sessions := rinsert w.sessions id s1 }
          , [Effect.scheduleRestart id backoff] )
        else
          let s1 := { s with reconnectAttempts := attempts }
          let k := killSessionOpt { w with sessions := rinsert w.sessions id s1 }
            id "max_reconnect_attempts"
          (k.1, k.2.1)
      else if code = some DR_restartRequired then
        let s1 := { s with isReconnecting := true }
        ( { w with sessions := rinsert w.sessions id s1 }
        , [Effect.scheduleRestart id 2000] )
      else
        (w, [])

/-- One `connection.update` payload: optional scannable `qr` payload, optional
`connection` value ("open" / "close"), and the `lastDisconnect` status code. -/
structure ConnUpdate where
  qr : Option String
  connection : Option String
  statusCode : Option Nat
  deriving DecidableEq, Repr

/-- The server-optimized `connectionListener` for session `id` (with the
`phoneNumber` captured by the closure): bail out when no record exists, else
handle the qr payload (only in `pending_qr`), then `open` (connected state,
timestamps reset, artifacts cleared, counters reset), then `close`. -/
def connectionListener (w : World) (id : String) (u : ConnUpdate) (now : Nat) :
    World × List Effect :=
  match rfind w.sessions id with
  | none => (w, [])
  | some s =>
      let qrStep : Session × List Effect :=
        match u.qr with
        | some payload =>
            if s.status = Status.pending_qr then
              ( { s with qr := some payload }
              , [Effect.emit id "qr:update", Effect.broadcast] )
            else (s, [])
        | none => (s, [])
      let s1 := qrStep.1
      let w1 := { w with sessions := rinsert w.sessions id s1 }
      if u.connection = some "open" then
        let s2 := { s1 with
          status := Status.connected
        , connectedAt := some now
        , createdAt := now
        , qr := none
        , pairingCode := none
        , reconnectAttempts := 0
        , isReconnecting := false }
        ( { w1 with sessions := rinsert w1.sessions id s2 }
        , qrStep.2 ++ [Effect.emit id "session:connected", Effect.broadcast] )
      else if u.connection = some "close" then
        let r := handleCloseOpt w1 id u.statusCode
        (r.1, qrStep.2 ++ r.2)
      else
        (w1, qrStep.2)

/-- The pairing-code `setTimeout` callback of the server-optimized
`startSession` firing for session `id`.  It can only fire while still armed
(recorded in `sessionTimers` and not yet cancelled); `result` is the outcome
of `sock.requestPairingCode`: on success the code is stored on whatever
record `sessions[sessionId]` currently holds, on failure a pairing:error is
emitted. -/
def pairingFire (w : World) (id : String) (result : Option String) :
    World × List Effect :=
  if w.pairingTimers.contains id then
    let w0 := { w with pairingTimers := w.pairingTimers.erase id }
    match result with
    | some code =>
        match rfind w0.sessions id with
        | some s =>
            let s1 := { s with pairingCode := some code }
            ( { w0 with sessions := rinsert w0.sessions id s1 }
            , [Effect.emit id "pairing:code", Effect.broadcast] )
        | none => (w0, [])
    | none => (w0, [Effect.emit id "pairing:error"])
  else (w, [])

/-- One pass of the expiry sweep over a snapshot of `Object.entries(sessions)`
(server-optimized variant): every record whose status starts with "pending"
and whose age exceeds PENDING_EXPIRE_MS is destroyed via
`killSession(id, 'pending_expired')`. -/
def sweepGo (now : Nat) : List (String × Session) → World → World × List Effect
  | [], w => (w, [])
  | (id, s) :: rest, w =>
      if s.status.isPending = true ∧ PENDING_EXPIRE_MS < now - s.createdAt then
        let k := killSessionOpt w id "pending_expired"
        let t := sweepGo now rest k.1
        (t.1, k.2.1 ++ t.2)
      else
        sweepGo now rest w

/-- The `setInterval(..., 30_000)` expiry sweep body. -/
def sweepOnce (now : Nat) (w : World) : World × List Effect :=
  sweepGo now w.sessions w

/-! ### Example states used by witnesses and counterexamples -/

def emptyWorld : World := { sessions := [], pairingTimers := [], nextHandle := 0 }

def sessA : Session :=
  { sockHandle := 0, status := Status.pending_qr, qr := none, pairingCode := none
  , createdAt := 0, connectedAt := none, phoneNumber := none
  , reconnectAttempts := 0, isReconnecting := false }

def wOne : World := { sessions := [("a", sessA)], pairingTimers := [], nextHandle := 3 }

/-! ### C10 -/

/-- C10: a `connection.update` event (qr, open or close) delivered for an id
with no record in the Registry is a complete no-op: the handler returns before
touching any state, so a destroyed session is never re-created, mutated or
restarted by a late event. -/
theorem missing_record_event_noop (w : World) (id : String) (u : ConnUpdate)
    (now : Nat) (h : rfind w.sessions id = none) :
    connectionListener w id u now = (w, []) := by
  unfold connectionListener
  rw [h]

theorem missing_record_event_noop_witness :
    rfind wOne.sessions "ghost" = none ∧
    connectionListener wOne "ghost"
      { qr := some "Q", connection := some "close", statusCode := some 401 } 9 =
      (wOne, []) :=
  ⟨by decide
  , missing_record_event_noop wOne "ghost"
      { qr := some "Q", connection := some "close", statusCode := some 401 } 9
      (by decide)⟩

/-! ### C5 -/

/-- C5: when `is_reconnecting` is already set, a further close event of any
classification (515 included) is ignored by the re-entrancy guard: the world
is unchanged, no effect — in particular no additional restart — is produced,
and the record is not destroyed, so at most one in-flight scheduled restart
exists per session. -/
theorem reconnect_guard_noop (w : World) (id : String) (code : Option Nat)
    (s : Session) (hs : rfind w.sessions id = some s)
    (hg : s.isReconnecting = true) :
    handleClose2 w id code = (w, []) ∧
    rfind (handleClose2 w id code).1.sessions id = some s := by
  unfold handleClose2
  rw [hs]
  simp [hg, hs]

def sessGuarded : Session := { sessA with isReconnecting := true }

def wGuarded : World :=
  { sessions := [("a", sessGuarded)], pairingTimers := [], nextHandle := 3 }

theorem reconnect_guard_noop_witness :
    rfind wGuarded.sessions "a" = some sessGuarded ∧
    sessGuarded.isReconnecting = true ∧
    (handleClose2 wGuarded "a" (some DR_restartRequired) = (wGuarded, []) ∧
     rfind (handleClose2 wGuarded "a" (some DR_restartRequired)).1.sessions "a" =
       some sessGuarded) :=
  ⟨by decide, by decide
  , reconnect_guard_noop wGuarded "a" (some DR_restartRequired) sessGuarded
      (by decide) (by decide)⟩

/-! ### C6 -/

/-- C6: a close whose code matches none of the classified codes (absent code
included) takes no automatic action: the world is unchanged, no restart is
scheduled, no purge happens, and the record stays in its pre-close state. -/
theorem unknown_close_noop (w : World) (id : String) (code : Option Nat)
    (s : Session) (hs : rfind w.sessions id = some s)
    (hc : isClassifiedCode code = false) :
    handleClose2 w id code = (w, []) ∧
    rfind (handleClose2 w id code).1.sessions id = some s := by
  unfold handleClose2
  rw [hs]
  by_cases hg : s.isReconnecting
  · simp [hg, hs]
  · cases code with
    | none => simp [hg, hs]
    | some c =>
        have hne : ∀ d : Nat, isClassifiedCode (some d) = true → ¬ c = d := by
          intro d hd he
          subst he
          rw [hc] at hd
          exact Bool.false_ne_true hd
        simp [hg, hs, DR_loggedOut, DR_badSession, DR_forbidden,
          DR_multideviceMismatch, DR_connectionReplaced, DR_connectionLost,
          DR_timedOut, DR_connectionClosed, DR_unavailableService,
          DR_restartRequired,
          hne 401 (by decide), hne 500 (by decide), hne 403 (by decide),
          hne 411 (by decide), hne 440 (by decide), hne 408 (by decide),
          hne 428 (by decide), hne 503 (by decide), hne 515 (by decide)]

theorem unknown_close_noop_witness :
    rfind wOne.sessions "a" = some sessA ∧
    isClassifiedCode (some 999) = false ∧
    (handleClose2 wOne "a" (some 999) = (wOne, []) ∧
     rfind (handleClose2 wOne "a" (some 999)).1.sessions "a" = some sessA) :=
  ⟨by decide, by decide
  , unknown_close_noop wOne "a" (some 999) sessA (by decide) (by decide)⟩

/-! ### C1 -/

/-- C1 (amended): a close whose code is classified terminal (401, 500, 403,
411, 440), arriving while the record's `is_reconnecting` guard is clear,
leaves the record absent from the Registry and invokes the credential purge
for that id exactly once.  (The amendment is forced by the re-entrancy guard,
which ignores any close — terminal included — while `is_reconnecting` is
set; see the counterexample.) -/
theorem terminal_close_purges_once (w : World) (id : String) (c : Nat)
    (s : Session) (hs : rfind w.sessions id = some s)
    (hg : s.isReconnecting = false) (hc : isTerminalCode c = true) :
    rfind (handleClose2 w id (some c)).1.sessions id = none ∧
    countPurges (handleClose2 w id (some c)).2 id = 1 := by
  have hcases : c = 401 ∨ c = 500 ∨ c = 403 ∨ c = 411 ∨ c = 440 := by
    simp only [isTerminalCode, DR_loggedOut, DR_badSession, DR_forbidden,
      DR_multideviceMismatch, DR_connectionReplaced, Bool.or_eq_true,
      beq_iff_eq] at hc
    tauto
  unfold handleClose2
  rw [hs]
  rcases hcases with h | h | h | h | h <;> subst h <;>
    simp [hg, rfind_rerase_self, countPurges, isPurgeFor, DR_loggedOut,
      DR_badSession, DR_forbidden, DR_multideviceMismatch,
      DR_connectionReplaced, DR_connectionLost, DR_timedOut,
      DR_connectionClosed, DR_unavailableService, DR_restartRequired]

theorem terminal_close_purges_once_witness :
    rfind wOne.sessions "a" = some sessA ∧
    sessA.isReconnecting = false ∧
    isTerminalCode 401 = true ∧
    (rfind (handleClose2 wOne "a" (some 401)).1.sessions "a" = none ∧
     countPurges (handleClose2 wOne "a" (some 401)).2 "a" = 1) :=
  ⟨by decide, by decide, by decide
  , terminal_close_purges_once wOne "a" 401 sessA (by decide) (by decide)
      (by decide)⟩

/-- Reachable state for the C1/C2 counterexamples: a fresh session that took
one transient close (408), so its restart is scheduled and
`is_reconnecting = true`. -/
def cexWorld1 : World := (startSession2 emptyWorld "a" none false 0 false).1

def cexWorld2 : World := (handleClose2 cexWorld1 "a" (some DR_connectionLost)).1

/-- C1 counterexample (claim as stated, without the guard condition): in the
reachable state `cexWorld2` the record for "a" has `is_reconnecting = true`;
a logged-out (401, classified terminal) close is then ignored — the record is
still present afterwards and the credential purge is never invoked, against
the claim's required absence and exactly-one purge. -/
theorem terminal_close_guard_counterexample :
    ((rfind cexWorld2.sessions "a").map Session.isReconnecting = some true) ∧
    (rfind (handleClose2 cexWorld2 "a" (some DR_loggedOut)).1.sessions "a" ≠
      none) ∧
    countPurges (handleClose2 cexWorld2 "a" (some DR_loggedOut)).2 "a" = 0 := by
  decide

/-! ### C2 -/

/-- C2 (amended): a close classified transient (408 lost/timed-out, 428
closed, 503 unavailable), arriving while `is_reconnecting` is clear,
increments `reconnect_attempts` by exactly 1; while the new count is ≤ 5 it
sets the guard and schedules exactly one restart after
`min(attempts × base, 30000)` ms where 503 uses base 5000 and the other codes
base 2000; once the count exceeds 5 the record is destroyed through
`killSession` with the max-reconnect-attempts reason.  The scheduled callback
re-invokes Start with `force = true` after clearing the guard, producing a
fresh record whose `is_reconnecting` is false.  (The amendment is forced by
the re-entrancy guard: a transient close while `is_reconnecting` is set does
nothing — see the counterexample.) -/
theorem transient_close_backoff (w w' : World) (id : String) (c : Nat)
    (s s' : Session) (phone : Option String) (now' : Nat) (reg' : Bool)
    (hs : rfind w.sessions id = some s) (hg : s.isReconnecting = false)
    (hc : isTransientCode c = true)
    (hs' : rfind w'.sessions id = some s') :
    (s.reconnectAttempts + 1 ≤ 5 →
       rfind (handleClose2 w id (some c)).1.sessions id =
         some { s with reconnectAttempts := s.reconnectAttempts + 1
                     , isReconnecting := true } ∧
       (handleClose2 w id (some c)).2 =
         [Effect.scheduleRestart id
           (min ((s.reconnectAttempts + 1) *
             (if c = DR_unavailableService then 5000 else 2000)) 30000)]) ∧
    (5 < s.reconnectAttempts + 1 →
       rfind (handleClose2 w id (some c)).1.sessions id = none ∧
       (handleClose2 w id (some c)).2.head? =
         some (Effect.emitKilled id "max_reconnect_attempts")) ∧
    (rfind (runScheduledRestart2 w' id phone now' reg').1.sessions id =
       some (freshSession w'.nextHandle phone now') ∧
     (freshSession w'.nextHandle phone now').isReconnecting = false) := by
  have hcases : c = 408 ∨ c = 428 ∨ c = 503 := by
    simp only [isTransientCode, DR_connectionLost, DR_timedOut,
      DR_connectionClosed, DR_unavailableService, Bool.or_eq_true,
      beq_iff_eq] at hc
    tauto
  refine ⟨?_, ?_, ?_⟩
  · intro hle
    unfold handleClose2
    rw [hs]
    rcases hcases with h | h | h <;> subst h <;>
      simp [hg, hle, MAX_RECONNECT_ATTEMPTS, rfind_rinsert_self, DR_loggedOut,
        DR_badSession, DR_forbidden, DR_multideviceMismatch,
        DR_connectionReplaced, DR_connectionLost, DR_timedOut,
        DR_connectionClosed, DR_unavailableService, DR_restartRequired]
  · intro hgt
    have hle : ¬ (s.reconnectAttempts + 1 ≤ MAX_RECONNECT_ATTEMPTS) := by
      simp only [MAX_RECONNECT_ATTEMPTS]
      omega
    unfold handleClose2
    rw [hs]
    rcases hcases with h | h | h <;> subst h <;>
      simp [hg, hle, killSession, rfind_rinsert_self, rfind_rerase_self,
        DR_loggedOut, DR_badSession, DR_forbidden, DR_multideviceMismatch,
        DR_connectionReplaced, DR_connectionLost, DR_timedOut,
        DR_connectionClosed, DR_unavailableService, DR_restartRequired]
  · unfold runScheduledRestart2
    rw [hs']
    unfold startSession2
    simp [rfind, rinsert, createFresh, freshSession, rfind_rerase_self]

theorem transient_close_backoff_witness :
    rfind wOne.sessions "a" = some sessA ∧
    sessA.isReconnecting = false ∧
    isTransientCode 503 = true ∧
    (sessA.reconnectAttempts + 1 ≤ 5 →
       rfind (handleClose2 wOne "a" (some 503)).1.sessions "a" =
         some { sessA with reconnectAttempts := sessA.reconnectAttempts + 1
                         , isReconnecting := true } ∧
       (handleClose2 wOne "a" (some 503)).2 =
         [Effect.scheduleRestart "a"
           (min ((sessA.reconnectAttempts + 1) *
             (if (503 : Nat) = DR_unavailableService then 5000 else 2000)) 30000)]) :=
  ⟨by decide, by decide, by decide
  , (transient_close_backoff wOne wOne "a" 503 sessA sessA none 0 false
      (by decide) (by decide) (by decide) (by decide)).1⟩

/-- C2 counterexample (claim as stated, without the guard condition): in the
reachable state `cexWorld2` the record for "a" holds `reconnect_attempts = 1`
with `is_reconnecting = true`; a further transient close (408) neither
increments the counter nor schedules any restart. -/
theorem transient_close_guard_counterexample :
    ((rfind cexWorld2.sessions "a").map Session.reconnectAttempts = some 1) ∧
    ((rfind cexWorld2.sessions "a").map Session.isReconnecting = some true) ∧
    ((rfind (handleClose2 cexWorld2 "a" (some DR_connectionLost)).1.sessions
        "a").map Session.reconnectAttempts = some 1) ∧
    (handleClose2 cexWorld2 "a" (some DR_connectionLost)).2 = [] := by
  decide

/-! ### C4 -/

/-- C4: invoking Start with `force = true` on an id with an existing record
first tears down the old transport (the very first effect is `end` on the old
socket, followed by the timer cancellation of the removed record) and then
yields a fresh record with `reconnect_attempts = 0` whose transport handle
differs from the prior one (handles held in the Registry are always below the
fresh-handle counter). -/
theorem force_restart_fresh_record (maxSessions now : Nat) (registered : Bool)
    (w : World) (id : String) (phone : Option String) (e : Session)
    (hs : rfind w.sessions id = some e) (hwf : e.sockHandle < w.nextHandle) :
    rfind (startSessionOpt maxSessions w id phone true now registered).1.sessions
        id = some (freshSession w.nextHandle phone now) ∧
    (freshSession w.nextHandle phone now).reconnectAttempts = 0 ∧
    (freshSession w.nextHandle phone now).sockHandle ≠ e.sockHandle ∧
    (startSessionOpt maxSessions w id phone true now registered).2.head? =
      some (Effect.sockEnd e.sockHandle) := by
  unfold startSessionOpt
  rw [hs]
  refine ⟨?_, rfl, ?_, ?_⟩
  · simp [createFresh, rfind_rinsert_self]
  · simp [freshSession]
    omega
  · simp [createFresh]

theorem force_restart_fresh_record_witness :
    rfind wOne.sessions "a" = some sessA ∧
    sessA.sockHandle < wOne.nextHandle ∧
    (rfind (startSessionOpt 50 wOne "a" none true 7 false).1.sessions "a" =
       some (freshSession wOne.nextHandle none 7) ∧
     (freshSession wOne.nextHandle none 7).reconnectAttempts = 0 ∧
     (freshSession wOne.nextHandle none 7).sockHandle ≠ sessA.sockHandle ∧
     (startSessionOpt 50 wOne "a" none true 7 false).2.head? =
       some (Effect.sockEnd sessA.sockHandle)) :=
  ⟨by decide, by decide
  , force_restart_fresh_record 50 7 false wOne "a" none sessA (by decide)
      (by decide)⟩

/-! ### C7 -/

/-- C7: when the Registry holds at least the configured maximum number of
sessions, a Start for an id with no existing record is rejected with no
change at all (no record created, Registry untouched); a Start for an id that
already has a record never consults the capacity limit — its outcome is
identical for every limit value. -/
theorem capacity_gate (ms ms' now now' : Nat) (reg reg' : Bool) (w : World)
    (id : String) (phone phone' : Option String) (force force' : Bool) :
    (rfind w.sessions id = none → ms ≤ rsize w.sessions →
       startSessionOpt ms w id phone force now reg = (w, [])) ∧
    (∀ e, rfind w.sessions id = some e →
       startSessionOpt ms w id phone' force' now' reg' =
         startSessionOpt ms' w id phone' force' now' reg') := by
  constructor
  · intro hnone hcap
    unfold startSessionOpt
    rw [hnone]
    simp [hcap]
  · intro e hsome
    unfold startSessionOpt
    rw [hsome]

def sessB : Session := { sessA with sockHandle := 1 }

def wFull : World :=
  { sessions := [("a", sessA), ("b", sessB)], pairingTimers := [], nextHandle := 5 }

theorem capacity_gate_witness :
    (rfind wFull.sessions "c" = none ∧
     (2 : Nat) ≤ rsize wFull.sessions ∧
     startSessionOpt 2 wFull "c" none false 0 false = (wFull, [])) ∧
    (rfind wFull.sessions "a" = some sessA ∧
     startSessionOpt 2 wFull "a" none true 0 false =
       startSessionOpt 999 wFull "a" none true 0 false) :=
  ⟨⟨by decide, by decide
   , (capacity_gate 2 999 0 0 false false wFull "c" none none false true).1
       (by decide) (by decide)⟩
  , ⟨by decide
   , (capacity_gate 2 999 0 0 false false wFull "a" none none false true).2
       sessA (by decide)⟩⟩

/-! ### C8 -/

/-- C8: explicit kill of an existing record always completes its full
cleanup — the credential purge for that id is invoked exactly once and the
record is removed — even when the transport `end`/`logout` sub-steps throw
(the first try block swallows them); kill of an absent id changes nothing and
the DELETE route reports SESSION_NOT_FOUND. -/
theorem kill_always_cleans (w : World) (id : String) (reason : String)
    (endFails : Bool) :
    (∀ s, rfind w.sessions id = some s →
       rfind (killSession w id reason endFails).1.sessions id = none ∧
       countPurges (killSession w id reason endFails).2.1 id = 1 ∧
       (killSession w id reason endFails).2.2 = true) ∧
    (rfind w.sessions id = none →
       killSession w id reason endFails = (w, [], false) ∧
       (deleteSessionRoute w id endFails).2.2 = "SESSION_NOT_FOUND") := by
  constructor
  · intro s hsome
    unfold killSession
    rw [hsome]
    cases endFails <;>
      simp [rfind_rerase_self, countPurges, isPurgeFor]
  · intro hnone
    unfold deleteSessionRoute killSession
    rw [hnone]
    simp

theorem kill_always_cleans_witness :
    (rfind wOne.sessions "a" = some sessA ∧
     (rfind (killSession wOne "a" "manual_kill" true).1.sessions "a" = none ∧
      countPurges (killSession wOne "a" "manual_kill" true).2.1 "a" = 1 ∧
      (killSession wOne "a" "manual_kill" true).2.2 = true)) ∧
    (rfind wOne.sessions "ghost" = none ∧
     (killSession wOne "ghost" "manual_kill" true = (wOne, [], false) ∧
      (deleteSessionRoute wOne "ghost" true).2.2 = "SESSION_NOT_FOUND")) :=
  ⟨⟨by decide
   , (kill_always_cleans wOne "a" "manual_kill" true).1 sessA (by decide)⟩
  , ⟨by decide
   , (kill_always_cleans wOne "ghost" "manual_kill" true).2 (by decide)⟩⟩

/-! ### C3 -/

theorem killOpt_preserves_other (w : World) (j id : String) (reason : String)
    (h : j ≠ id) :
    rfind (killSessionOpt w j reason).1.sessions id = rfind w.sessions id := by
  unfold killSessionOpt
  cases hf : rfind w.sessions j with
  | none => rfl
  | some s => simp [rfind_rerase_ne _ _ _ h]

theorem sweepGo_none (now : Nat) (es : List (String × Session)) (w : World)
    (id : String) (h : rfind w.sessions id = none) :
    rfind (sweepGo now es w).1.sessions id = none := by
  induction es generalizing w with
  | nil => exact h
  | cons p rest ih =>
      obtain ⟨j, t⟩ := p
      unfold sweepGo
      by_cases hc : t.status.isPending = true ∧ PENDING_EXPIRE_MS < now - t.createdAt
      · rw [if_pos hc]
        apply ih
        by_cases hj : j = id
        · subst hj
          simp [killSessionOpt, h]
        · rw [killOpt_preserves_other _ _ _ _ hj]
          exact h
      · rw [if_neg hc]
        exact ih _ h

theorem sweepGo_preserve_absent_key (now : Nat) (es : List (String × Session))
    (w : World) (id : String) (h : id ∉ es.map Prod.fst) :
    rfind (sweepGo now es w).1.sessions id = rfind w.sessions id := by
  induction es generalizing w with
  | nil => rfl
  | cons p rest ih =>
      obtain ⟨j, t⟩ := p
      have hj : j ≠ id := by
        intro hj
        exact h (by simp [hj])
      have h2 : id ∉ rest.map Prod.fst := by
        intro hm
        exact h (by simp [hm])
      unfold sweepGo
      by_cases hc : t.status.isPending = true ∧ PENDING_EXPIRE_MS < now - t.createdAt
      · rw [if_pos hc]
        rw [ih _ h2, killOpt_preserves_other _ _ _ _ hj]
      · rw [if_neg hc]
        exact ih _ h2

theorem rfind_of_mem_nodup (r : Registry) (j : String) (t : Session)
    (hnd : keysNodup r) (hm : (j, t) ∈ r) : rfind r j = some t := by
  induction r with
  | nil => simp at hm
  | cons p rest ih =>
      obtain ⟨k, u⟩ := p
      have hcons : k ∉ rest.map Prod.fst ∧ keysNodup rest := by
        have := hnd
        simp only [keysNodup, List.map_cons, List.nodup_cons] at this
        exact this
      rcases List.mem_cons.mp hm with hh | hh
      · have hk : k = j := by
          have := congrArg Prod.fst hh.symm
          simpa using this
        have ht : u = t := by
          have := congrArg Prod.snd hh.symm
          simpa using this
        subst hk
        simp [rfind, ht]
      · have hk : k ≠ j := by
          intro hk
          subst hk
          exact hcons.1 (by simpa using List.mem_map_of_mem Prod.fst hh)
        simp [rfind, hk]
        exact ih hcons.2 hh

theorem sweepGo_kills (now : Nat) (es : List (String × Session)) (w : World)
    (id : String) (s : Session)
    (hnd : (es.map Prod.fst).Nodup) (hm : (id, s) ∈ es)
    (hpres : ∀ p ∈ es, rfind w.sessions p.1 = some p.2)
    (hp : s.status.isPending = true)
    (hexp : PENDING_EXPIRE_MS < now - s.createdAt) :
    rfind (sweepGo now es w).1.sessions id = none ∧
    ∃ l1 l2, (sweepGo now es w).2 =
      l1 ++ killOptEffects id s "pending_expired" ++ l2 := by
  induction es generalizing w with
  | nil => simp at hm
  | cons p rest ih =>
      obtain ⟨j, t⟩ := p
      have hcons : j ∉ rest.map Prod.fst ∧ (rest.map Prod.fst).Nodup := by
        have := hnd
        simp only [List.map_cons, List.nodup_cons] at this
        exact this
      rcases List.mem_cons.mp hm with hh | hh
      · have hj : j = id := by
          have := congrArg Prod.fst hh.symm
          simpa using this
        have ht : t = s := by
          have := congrArg Prod.snd hh.symm
          simpa using this
        subst hj
        subst ht
        have hfind : rfind w.sessions j = some t := hpres (j, t) (by simp)
        unfold sweepGo
        rw [if_pos ⟨hp, hexp⟩]
        have hkill : killSessionOpt w j "pending_expired" =
            ( { w with
                  sessions := rerase w.sessions j
                , pairingTimers := w.pairingTimers.filter (fun x => x ≠ j) }
            , killOptEffects j t "pending_expired", true) := by
          unfold killSessionOpt
          rw [hfind]
        rw [hkill]
        dsimp only
        refine ⟨sweepGo_none now rest _ j (rfind_rerase_self _ _), [], (sweepGo now rest { w with sessions := rerase w.sessions j, pairingTimers := w.pairingTimers.filter (fun x => x ≠ j) }).2, ?_⟩
        simp
      · have hj : j ≠ id := by
          intro hj
          subst hj
          exact hcons.1 (by simpa using List.mem_map_of_mem Prod.fst hh)
        unfold sweepGo
        by_cases hc : t.status.isPending = true ∧ PENDING_EXPIRE_MS < now - t.createdAt
        · rw [if_pos hc]
          have hpres' : ∀ p ∈ rest,
              rfind (killSessionOpt w j "pending_expired").1.sessions p.1 = some p.2 := by
            intro p hpmem
            have hpj : j ≠ p.1 := by
              intro hpj
              exact hcons.1 (hpj ▸ List.mem_map_of_mem Prod.fst hpmem)
            rw [killOpt_preserves_other _ _ _ _ hpj]
            exact hpres p (List.mem_cons_of_mem _ hpmem)
          obtain ⟨h1, l1, l2, h2⟩ := ih _ hcons.2 hh hpres'
          refine ⟨h1, (killSessionOpt w j "pending_expired").2.1 ++ l1, l2, ?_⟩
          simp [h2]
        · rw [if_neg hc]
          exact ih _ hcons.2 hh
            (fun p hpmem => hpres p (List.mem_cons_of_mem _ hpmem))

theorem sweepGo_keeps (now : Nat) (es : List (String × Session)) (w : World)
    (id : String) (s : Session)
    (hnd : (es.map Prod.fst).Nodup)
    (hf : rfind w.sessions id = some s)
    (hnp : s.status.isPending = false)
    (hval : ∀ t, (id, t) ∈ es → t = s) :
    rfind (sweepGo now es w).1.sessions id = some s := by
  induction es generalizing w with
  | nil => exact hf
  | cons p rest ih =>
      obtain ⟨j, t⟩ := p
      have hcons : j ∉ rest.map Prod.fst ∧ (rest.map Prod.fst).Nodup := by
        have := hnd
        simp only [List.map_cons, List.nodup_cons] at this
        exact this
      by_cases hj : j = id
      · subst hj
        have ht : t = s := hval t (by simp)
        subst ht
        unfold sweepGo
        have hc : ¬ (t.status.isPending = true ∧
            PENDING_EXPIRE_MS < now - t.createdAt) := by
          intro hc
          rw [hnp] at hc
          exact Bool.false_ne_true hc.1
        rw [if_neg hc]
        rw [sweepGo_preserve_absent_key now rest w j hcons.1]
        exact hf
      · unfold sweepGo
        by_cases hc : t.status.isPending = true ∧ PENDING_EXPIRE_MS < now - t.createdAt
        · rw [if_pos hc]
          apply ih _ hcons.2
          · rw [killOpt_preserves_other _ _ _ _ hj]
            exact hf
          · exact fun u hu => hval u (List.mem_cons_of_mem _ hu)
        · rw [if_neg hc]
          exact ih _ hcons.2 hf (fun u hu => hval u (List.mem_cons_of_mem _ hu))

/-- C3: on a sweep tick, every record whose status starts with "pending" and
whose age exceeds the 2-minute threshold is destroyed through exactly the
explicit-kill path (`killSession` effects: killed notification, transport
teardown, credential purge, timer cancellation, then broadcast) with reason
`pending_expired`, and is absent afterwards; a connected record is never
destroyed by the sweep, whatever its age. -/
theorem sweep_expires_pending (now : Nat) (w : World) (id : String)
    (s : Session) (hnd : keysNodup w.sessions)
    (hf : rfind w.sessions id = some s) :
    (s.status.isPending = true → PENDING_EXPIRE_MS < now - s.createdAt →
       rfind (sweepOnce now w).1.sessions id = none ∧
       ∃ l1 l2, (sweepOnce now w).2 =
         l1 ++ killOptEffects id s "pending_expired" ++ l2) ∧
    (s.status = Status.connected →
       rfind (sweepOnce now w).1.sessions id = some s) := by
  constructor
  · intro hp hexp
    exact sweepGo_kills now w.sessions w id s hnd (rfind_mem _ _ _ hf)
      (fun p hpmem => rfind_of_mem_nodup _ _ _ hnd hpmem) hp hexp
  · intro hconn
    have hnp : s.status.isPending = false := by
      rw [hconn]
      rfl
    exact sweepGo_keeps now w.sessions w id s hnd hf hnp
      (fun t ht => mem_value_eq _ _ _ _ hnd hf ht)

def sessOld : Session := { sessA with status := Status.pending_pair, createdAt := 10 }

def sessConn : Session :=
  { sessA with sockHandle := 1, status := Status.connected, connectedAt := some 4 }

def wSweep : World :=
  { sessions := [("p", sessOld), ("c", sessConn)], pairingTimers := [], nextHandle := 6 }

theorem sweep_expires_pending_witness :
    keysNodup wSweep.sessions ∧
    rfind wSweep.sessions "p" = some sessOld ∧
    sessOld.status.isPending = true ∧
    PENDING_EXPIRE_MS < 500000 - sessOld.createdAt ∧
    rfind wSweep.sessions "c" = some sessConn ∧
    sessConn.status = Status.connected ∧
    (rfind (sweepOnce 500000 wSweep).1.sessions "p" = none ∧
     ∃ l1 l2, (sweepOnce 500000 wSweep).2 =
       l1 ++ killOptEffects "p" sessOld "pending_expired" ++ l2) ∧
    rfind (sweepOnce 500000 wSweep).1.sessions "c" = some sessConn :=
  ⟨by decide, by decide, by decide, by decide, by decide, by decide
  , (sweep_expires_pending 500000 wSweep "p" sessOld (by decide) (by decide)).1
      (by decide) (by decide)
  , (sweep_expires_pending 500000 wSweep "c" sessConn (by decide) (by decide)).2
      (by decide)⟩

/-! ### C9 -/

/-- Start session "a" in the pairing flow: record `pending_pair`, pairing-code
timer armed (1200 ms `setTimeout`, recorded in `sessionTimers`). -/
def bugW1 : World :=
  (startSessionOpt 50 emptyWorld "a" (some "+1 555-0100") false 1 false).1

/-- A second Start for "a" with no phone and `force = false` while the first
record is still pending (the source reaches this through its own code path:
the record exists and is not connected, so no teardown branch runs).  The
record is overwritten by a fresh `pending_qr` one, but `clearSessionTimers`
is never called, so the first record's pairing timer stays armed. -/
def bugW2 : World := (startSessionOpt 50 bugW1 "a" none false 2 false).1

/-- The new transport emits a scannable payload; the record is `pending_qr`,
so `qr` is stored. -/
def bugW3 : World :=
  (connectionListener bugW2 "a"
    { qr := some "QR-PAYLOAD", connection := none, statusCode := none } 3).1

/-- The stale pairing timer fires; `requestPairingCode` on the still-live old
socket succeeds, and the callback stores the code on whatever
`sessions[sessionId]` now holds — the `pending_qr` record. -/
def bugW4 : World := (pairingFire bugW3 "a" (some "ABCD-1234")).1

/-- C9 is violated by the code: after the trace
start("a", phone) → start("a", no phone, force = false) → qr event →
stale pairing timer fires, the single record for "a" holds both a non-null
`qr_payload` and a non-null `pairing_code` at once.  The middle conjunct
exhibits the stale timer that the overwriting Start failed to cancel. -/
theorem qr_pairing_both_nonnull :
    ((rfind bugW2.sessions "a").map Session.status = some Status.pending_qr) ∧
    bugW2.pairingTimers = ["a"] ∧
    ((rfind bugW4.sessions "a").map (fun s => (s.qr, s.pairingCode))) =
      some (some "QR-PAYLOAD", some "ABCD-1234") := by
  decide
